import Mathlib

/-!
Verification of `generate-android-icons.py`: a shallow embedding of the script's
data model and operations, followed by theorems about its behaviour.

The filesystem and console are modelled by a `World` state (a directory set, a
write-log of files keyed by path, and a message log).  Images are modelled at
pixel level; the floating-point resampling kernel of Pillow's `resize` is the
only abstracted component (a `Resampler` parameter), since no claim depends on
resampled pixel values.
-/

/-- A filesystem path, as a list of components. -/
abbrev FPath := List String

/-- `p / s` in `pathlib`: appending one path component. -/
def FPath.child (p : FPath) (s : String) : FPath := p ++ [s]

/-- A pixel: four 8-bit channels (values kept as `Nat`; the script never does
channel arithmetic, it only moves whole channel values around). -/
structure RGBA where
  r : Nat
  g : Nat
  b : Nat
  a : Nat
deriving Repr, DecidableEq

/-- An in-memory Pillow image: a mode tag (`"RGBA"`, `"L"`, `"RGB"`, ...),
pixel dimensions, and a pixel map.  Single-channel (`"L"`) images store their
channel in `r`. -/
structure Img where
  mode : String
  width : Nat
  height : Nat
  pix : Nat → Nat → RGBA

/-- Console messages printed by the script (string formatting elided; each
constructor records the data interpolated into the corresponding `print`). -/
inductive LogMsg where
  | loading (p : FPath)
  | loadError (p : FPath)
  | sourceSize (w h : Nat)
  | created (p : FPath) (size : Nat)
  | allGenerated
  | copyingXml
  | copied (p : FPath)
  | sourceNotFound (p : FPath)
  | banner
  | errSourceIconMissing (p : FPath)
  | errAndroidResMissing (p : FPath)
  | noteManualFixMissing
  | completeBanner
deriving Repr, DecidableEq

/-- Contents of a file on disk: a PNG-encoded image, or any other file
(the copied XML resources), carried verbatim. -/
inductive FileData where
  | png (img : Img)
  | xml (text : String)

/-- The script's observable state: directories present, files present (most
recent write first), and the console log (most recent message first). -/
structure World where
  dirs : List FPath
  files : List (FPath × FileData)
  log : List LogMsg

/-- Reading a file: the most recent write at that path. -/
def World.lookupFile (w : World) (p : FPath) : Option FileData :=
  (w.files.find? (fun e => decide (e.1 = p))).map (fun e => e.2)

/-- `FPath.exists()` for a file. -/
def World.fileExists (w : World) (p : FPath) : Bool := (w.lookupFile p).isSome

/-- `FPath.exists()` for a directory. -/
def World.dirExists (w : World) (p : FPath) : Bool := decide (p ∈ w.dirs)

/-- `FPath.exists()`: the path is present as a file or as a directory. -/
def World.pathExists (w : World) (p : FPath) : Bool := w.fileExists p || w.dirExists p

/-- `p.mkdir(parents=True, exist_ok=True)`: records `p` and all its prefixes as
directories; never fails, also when they already exist. -/
def World.mkdirParents (w : World) (p : FPath) : World :=
  { w with dirs := p.inits ++ w.dirs }

/-- `img.save(path)` / `shutil` write: overwrites whatever was at `path`. -/
def World.save (w : World) (p : FPath) (d : FileData) : World :=
  { w with files := (p, d) :: w.files }

/-- `print(...)`: prepends a message to the console log. -/
def World.print (w : World) (m : LogMsg) : World :=
  { w with log := m :: w.log }

/-- Pixel-center inclusion test for the ellipse inscribed in the rectangle
`[0, w] × [0, h]`: pixel `(x, y)` (center `(x + 1/2, y + 1/2)`) is inside iff
`((2x+1-w)/w)² + ((2y+1-h)/h)² ≤ 1`, cleared of denominators over `Int`. -/
def insideInscribedEllipse (w h x y : Nat) : Bool :=
  decide ((2 * (x : Int) + 1 - w) ^ 2 * (h : Int) ^ 2 +
          (2 * (y : Int) + 1 - h) ^ 2 * (w : Int) ^ 2 ≤ (w : Int) ^ 2 * (h : Int) ^ 2)

/-- `Image.new('L', size, 0)` (generalised to any initial channel value `c`):
a single-channel image, channel stored in `r`. -/
def Img.newL (w h : Nat) (c : Nat) : Img :=
  { mode := "L", width := w, height := h, pix := fun _ _ => ⟨c, 0, 0, 0⟩ }

/-- `Image.new('RGBA', size, c)`. -/
def Img.newRGBA (w h : Nat) (c : RGBA) : Img :=
  { mode := "RGBA", width := w, height := h, pix := fun _ _ => c }

/-- Modelled from the spec: `ImageDraw.Draw(mask).ellipse((0, 0) + size, fill=255)`
fills the ellipse inscribed in the image rectangle; the spec allows a binary
inside/outside mask ("no sub-pixel blending is required"), realised here by the
pixel-center inclusion test. -/
def drawEllipseFill (img : Img) (fill : Nat) : Img :=
  { img with pix := fun x y =>
      if insideInscribedEllipse img.width img.height x y then ⟨fill, 0, 0, 0⟩
      else img.pix x y }

/-- `base.paste(src, (ox, oy))` for an image without a mask argument: pixels in
the pasted region are replaced wholesale (alpha included). -/
def Img.paste (base src : Img) (ox oy : Nat) : Img :=
  { base with pix := fun x y =>
      if ox ≤ x ∧ x < ox + src.width ∧ oy ≤ y ∧ y < oy + src.height
      then src.pix (x - ox) (y - oy)
      else base.pix x y }

/-- `img.putalpha(mask)`: the alpha band is replaced (not multiplied or
blended) by the mask's single channel; the result is RGBA. -/
def Img.putalpha (img mask : Img) : Img :=
  { img with mode := "RGBA",
             pix := fun x y => { img.pix x y with a := (mask.pix x y).r } }

/-- Modelled from the spec: Pillow `convert('RGBA')` normalizes any pixel
format to a 4-channel RGBA representation.  Pixels are already 4-channel in
this model, so only the mode tag changes; the per-mode channel arithmetic is
irrelevant to the program. -/
def Img.convertRGBA (img : Img) : Img := { img with mode := "RGBA" }

/-- The Pillow resampling filters of `Image.Resampling`. -/
inductive Resampling where
  | nearest
  | box
  | bilinear
  | hamming
  | bicubic
  | lanczos
deriving Repr, DecidableEq

/-- The abstracted resampling kernel of Pillow's `resize` (floating-point
convolution, outside the model): given the filter, the source image, the target
dimensions and a target coordinate, produce the output pixel. -/
structure Resampler where
  sample : Resampling → Img → Nat → Nat → Nat → Nat → RGBA

/-- `img.resize((w, h), filter)`: the mode is preserved, the dimensions are the
requested ones, pixels come from the resampling kernel. -/
def Img.resize (R : Resampler) (img : Img) (w h : Nat) (f : Resampling) : Img :=
  { mode := img.mode, width := w, height := h, pix := R.sample f img w h }

/-- `create_round_icon(square_image)` — generate-android-icons.py lines 19–29. -/
def create_round_icon (square_image : Img) : Img :=
  let mask := drawEllipseFill (Img.newL square_image.width square_image.height 0) 255
  let rounded := Img.newRGBA square_image.width square_image.height ⟨0, 0, 0, 0⟩
  let rounded := rounded.paste square_image 0 0
  rounded.putalpha mask

/-- The density table — generate-android-icons.py lines 36–42 (a Python 3.7+
`dict` preserves insertion order, hence a list of pairs). -/
def densities : List (String × Nat) :=
  [("mdpi", 48), ("hdpi", 72), ("xhdpi", 96), ("xxhdpi", 144), ("xxxhdpi", 192)]

/-- `Image.open(path)` followed by the `convert('RGBA')` normalization, inside
the `try` block of `generate_icons`: `none` models the `except` branch (path
missing or not a decodable image). -/
def openImageRGBA (w : World) (p : FPath) : Option Img :=
  match w.lookupFile p with
  | some (FileData.png img) => some (if img.mode ≠ "RGBA" then img.convertRGBA else img)
  | some (FileData.xml _) => none
  | none => none

/-- `output_base_path / f'mipmap-{density}' / 'ic_launcher.png'`. -/
def squarePath (op : FPath) (ds : String × Nat) : FPath :=
  (op.child ("mipmap-" ++ ds.1)).child "ic_launcher.png"

/-- `output_base_path / f'mipmap-{density}' / 'ic_launcher_round.png'`. -/
def roundPath (op : FPath) (ds : String × Nat) : FPath :=
  (op.child ("mipmap-" ++ ds.1)).child "ic_launcher_round.png"

/-- The PNG file written for a density's square icon. -/
def squareFile (R : Resampler) (src : Img) (ds : String × Nat) : FileData :=
  FileData.png (Img.resize R src ds.2 ds.2 Resampling.lanczos)

/-- The PNG file written for a density's round icon. -/
def roundFile (R : Resampler) (src : Img) (ds : String × Nat) : FileData :=
  FileData.png (create_round_icon (Img.resize R src ds.2 ds.2 Resampling.lanczos))

/-- The body of the `for density, size in densities.items()` loop —
generate-android-icons.py lines 57–71. -/
def densityStep (R : Resampler) (source_img : Img) (output_base_path : FPath)
    (w : World) (ds : String × Nat) : World :=
  let mipmap_dir := output_base_path.child ("mipmap-" ++ ds.1)
  let w := w.mkdirParents mipmap_dir
  let square_resized := Img.resize R source_img ds.2 ds.2 Resampling.lanczos
  let square_path := mipmap_dir.child "ic_launcher.png"
  let w := w.save square_path (FileData.png square_resized)
  let w := w.print (LogMsg.created square_path ds.2)
  let round_resized := create_round_icon square_resized
  let round_path := mipmap_dir.child "ic_launcher_round.png"
  let w := w.save round_path (FileData.png round_resized)
  let w := w.print (LogMsg.created round_path ds.2)
  w

/-- `generate_icons(source_icon_path, output_base_path)` —
generate-android-icons.py lines 32–75. -/
def generate_icons (R : Resampler) (source_icon_path output_base_path : FPath)
    (w : World) : Bool × World :=
  let w := w.print (LogMsg.loading source_icon_path)
  match openImageRGBA w source_icon_path with
  | none => (false, w.print (LogMsg.loadError source_icon_path))
  | some source_img =>
    let w := w.print (LogMsg.sourceSize source_img.width source_img.height)
    let w := densities.foldl (densityStep R source_img output_base_path) w
    (true, w.print LogMsg.allGenerated)

/-- Splitting a character list at a separator character (auxiliary to
`splitSlash`). -/
def splitCharAux (c : Char) : List Char → List (List Char)
  | [] => [[]]
  | a :: t =>
    match splitCharAux c t with
    | [] => [[]]
    | g :: gs => if a = c then [] :: g :: gs else (a :: g) :: gs

/-- Modelled from the spec: the POSIX-style relative paths in the resource
table ('values/strings.xml', ...) split on '/' when joined with `pathlib`'s
`/` operator. -/
def splitSlash (s : String) : List String :=
  (splitCharAux '/' s.data).map (fun l => String.mk l)

/-- `FPath(file_path).name`: the final path component. -/
def baseName (s : String) : String := (splitSlash s).getLastD ""

/-- The fixed resource-copy table — generate-android-icons.py lines 82–87. -/
def xml_files : List (String × String) :=
  [("values/strings.xml", "values"),
   ("values/styles.xml", "values"),
   ("values/colors.xml", "values"),
   ("drawable/splashscreen.xml", "drawable")]

/-- `source_dir / file_path`. -/
def xmlSrc (source_dir : FPath) (fs : String × String) : FPath :=
  source_dir ++ splitSlash fs.1

/-- `dest_dir / subdir`. -/
def xmlDestDir (dest_dir : FPath) (fs : String × String) : FPath :=
  dest_dir.child fs.2

/-- `dest_dir / subdir / FPath(file_path).name`. -/
def xmlDest (dest_dir : FPath) (fs : String × String) : FPath :=
  (xmlDestDir dest_dir fs).child (baseName fs.1)

/-- The body of the `for file_path, subdir in xml_files` loop —
generate-android-icons.py lines 90–100.  `shutil.copy2` copies the file value
wholesale (content and, in the real filesystem, metadata). -/
def copyStep (source_dir dest_dir : FPath) (w : World) (fs : String × String) : World :=
  let w := w.mkdirParents (xmlDestDir dest_dir fs)
  match w.lookupFile (xmlSrc source_dir fs) with
  | some d => (w.save (xmlDest dest_dir fs) d).print (LogMsg.copied (xmlDest dest_dir fs))
  | none => w.print (LogMsg.sourceNotFound (xmlSrc source_dir fs))

/-- `copy_xml_resources(source_dir, dest_dir)` —
generate-android-icons.py lines 78–102. -/
def copy_xml_resources (source_dir dest_dir : FPath) (w : World) : World :=
  xml_files.foldl (copyStep source_dir dest_dir) (w.print LogMsg.copyingXml)

/-- `project_root / 'assets' / 'icon.png'`. -/
def sourceIconPath (project_root : FPath) : FPath :=
  (project_root.child "assets").child "icon.png"

/-- `project_root / 'android' / 'app' / 'src' / 'main' / 'res'`. -/
def androidResPath (project_root : FPath) : FPath :=
  (((((project_root.child "android").child "app").child "src").child "main").child "res")

/-- `project_root / 'android-resources-manual-fix'`. -/
def manualFixPath (project_root : FPath) : FPath :=
  project_root.child "android-resources-manual-fix"

/-- `main()` — generate-android-icons.py lines 105–151 (named `mainEntry` because Lean reserves `main` for executables).  Returns the process
exit code (0 for the normal fall-through, 1 for each `sys.exit(1)`) together
with the final world. -/
def mainEntry (R : Resampler) (project_root : FPath) (w : World) : Nat × World :=
  let source_icon := sourceIconPath project_root
  let android_res := androidResPath project_root
  let manual_fix_dir := manualFixPath project_root
  let w := w.print LogMsg.banner
  if w.pathExists source_icon = false then
    (1, w.print (LogMsg.errSourceIconMissing source_icon))
  else if w.pathExists android_res = false then
    (1, w.print (LogMsg.errAndroidResMissing android_res))
  else
    let res := generate_icons R source_icon android_res w
    if res.1 = false then
      (1, res.2)
    else
      let w := res.2
      let w := if w.pathExists manual_fix_dir then copy_xml_resources manual_fix_dir android_res w
               else w.print LogMsg.noteManualFixMissing
      (0, w.print LogMsg.completeBanner)

/-- Filesystem equivalence: same file contents at every path and the same set
of directories (the console log is not part of the filesystem). -/
def World.sameFS (w1 w2 : World) : Prop :=
  (∀ p, w1.lookupFile p = w2.lookupFile p) ∧ ∀ p, w1.dirExists p = w2.dirExists p

/-- A concrete 512×512 opaque RGB source image (the spec's §8 scenario). -/
def testImg : Img :=
  { mode := "RGB", width := 512, height := 512, pix := fun _ _ => ⟨7, 7, 7, 255⟩ }

/-- A concrete resampling kernel (nearest-pixel passthrough) used to
instantiate the abstract `Resampler` in witnesses. -/
def testRes : Resampler := ⟨fun _ img _ _ x y => img.pix x y⟩

/-- A concrete project root for witnesses. -/
def testRoot : FPath := ["proj"]

/-- A concrete world holding the source icon and the destination scaffold. -/
def testWorld : World :=
  { dirs := [androidResPath testRoot, ["proj"]],
    files := [(sourceIconPath testRoot, FileData.png testImg)],
    log := [] }

/-- A world with nothing in it (source icon missing). -/
def emptyWorld : World := { dirs := [], files := [], log := [] }

/-- A world whose source-icon path holds a file Pillow cannot decode. -/
def badIconWorld : World :=
  { dirs := [androidResPath testRoot, ["proj"]],
    files := [(sourceIconPath testRoot, FileData.xml "not an image")],
    log := [] }

/-- A world whose destination scaffold is missing. -/
def noResWorld : World :=
  { dirs := [["proj"]],
    files := [(sourceIconPath testRoot, FileData.png testImg)],
    log := [] }

/-- A resource source tree holding three of the four XML files
(`drawable/splashscreen.xml` is missing). -/
def xmlWorld : World :=
  { dirs := [],
    files := [(["fix", "values", "strings.xml"], FileData.xml "strings"),
              (["fix", "values", "styles.xml"], FileData.xml "styles"),
              (["fix", "values", "colors.xml"], FileData.xml "colors")],
    log := [] }

/-! ### Basic lemmas about the `World` operations -/

theorem lookupFile_save_self (w : World) (p : FPath) (d : FileData) :
    (w.save p d).lookupFile p = some d := by
  simp [World.save, World.lookupFile, List.find?]

theorem lookupFile_save_ne (w : World) (p q : FPath) (d : FileData) (h : q ≠ p) :
    (w.save p d).lookupFile q = w.lookupFile q := by
  have hpq : ¬(p = q) := fun hc => h hc.symm
  simp [World.save, World.lookupFile, List.find?, hpq]

theorem lookupFile_print (w : World) (m : LogMsg) (p : FPath) :
    (w.print m).lookupFile p = w.lookupFile p := rfl

theorem lookupFile_mkdir (w : World) (q p : FPath) :
    (w.mkdirParents q).lookupFile p = w.lookupFile p := rfl

theorem openImageRGBA_print (w : World) (m : LogMsg) (p : FPath) :
    openImageRGBA (w.print m) p = openImageRGBA w p := rfl

theorem openImageRGBA_congr (w1 w2 : World) (p : FPath)
    (h : w1.lookupFile p = w2.lookupFile p) :
    openImageRGBA w1 p = openImageRGBA w2 p := by
  unfold openImageRGBA
  rw [h]

theorem pathExists_print (w : World) (m : LogMsg) (p : FPath) :
    (w.print m).pathExists p = w.pathExists p := rfl

/-! ### Path component lemmas -/

theorem child2_inj {p : FPath} {a b c d : String}
    (h : (p.child a).child b = (p.child c).child d) : a = c ∧ b = d := by
  have h2 : p ++ [a, b] = p ++ [c, d] := by
    simpa [FPath.child, List.append_assoc] using h
  have h3 := List.append_cancel_left h2
  simp only [List.cons.injEq, and_true] at h3
  exact h3

theorem child2_ne {p : FPath} {a b c d : String} (h : a ≠ c ∨ b ≠ d) :
    (p.child a).child b ≠ (p.child c).child d := by
  intro hc
  rcases child2_inj hc with ⟨h1, h2⟩
  rcases h with h | h
  · exact h h1
  · exact h h2

theorem self_mem_inits (l : FPath) : l ∈ l.inits :=
  (List.mem_inits l l).mpr (List.prefix_refl l)

/-! ### Lemmas about one density-loop iteration -/

theorem densityStep_eq (R : Resampler) (src : Img) (op : FPath) (w : World)
    (ds : String × Nat) :
    densityStep R src op w ds =
      ((((w.mkdirParents (op.child ("mipmap-" ++ ds.1))).save
            (squarePath op ds) (squareFile R src ds)).print
          (LogMsg.created (squarePath op ds) ds.2)).save
        (roundPath op ds) (roundFile R src ds)).print
        (LogMsg.created (roundPath op ds) ds.2) := rfl

theorem step_lookup_square (R : Resampler) (src : Img) (op : FPath) (w : World)
    (ds : String × Nat) :
    (densityStep R src op w ds).lookupFile (squarePath op ds) = some (squareFile R src ds) := by
  have hne : squarePath op ds ≠ roundPath op ds :=
    child2_ne (Or.inr (by decide))
  rw [densityStep_eq, lookupFile_print, lookupFile_save_ne _ _ _ _ hne, lookupFile_print,
      lookupFile_save_self]

theorem step_lookup_round (R : Resampler) (src : Img) (op : FPath) (w : World)
    (ds : String × Nat) :
    (densityStep R src op w ds).lookupFile (roundPath op ds) = some (roundFile R src ds) := by
  rw [densityStep_eq, lookupFile_print, lookupFile_save_self]

theorem step_lookup_other (R : Resampler) (src : Img) (op : FPath) (w : World)
    (ds : String × Nat) (q : FPath)
    (h1 : q ≠ squarePath op ds) (h2 : q ≠ roundPath op ds) :
    (densityStep R src op w ds).lookupFile q = w.lookupFile q := by
  rw [densityStep_eq, lookupFile_print, lookupFile_save_ne _ _ _ _ h2, lookupFile_print,
      lookupFile_save_ne _ _ _ _ h1, lookupFile_mkdir]

theorem step_dirs_mem (R : Resampler) (src : Img) (op : FPath) (w : World)
    (ds : String × Nat) (q : FPath) :
    q ∈ (densityStep R src op w ds).dirs ↔
      q ∈ (op.child ("mipmap-" ++ ds.1)).inits ∨ q ∈ w.dirs := by
  simp [densityStep, World.mkdirParents, World.save, World.print]

/-! ### Lemmas about the whole density loop -/

theorem fold_lookup_other (R : Resampler) (src : Img) (op : FPath)
    (l : List (String × Nat)) (w : World) (q : FPath)
    (h : ∀ ds ∈ l, q ≠ squarePath op ds ∧ q ≠ roundPath op ds) :
    (l.foldl (densityStep R src op) w).lookupFile q = w.lookupFile q := by
  induction l generalizing w with
  | nil => rfl
  | cons a t ih =>
    have ha := h a (List.mem_cons_self a t)
    calc ((a :: t).foldl (densityStep R src op) w).lookupFile q
        = (t.foldl (densityStep R src op) (densityStep R src op w a)).lookupFile q := rfl
      _ = (densityStep R src op w a).lookupFile q :=
          ih _ (fun ds hds => h ds (List.mem_cons_of_mem a hds))
      _ = w.lookupFile q := step_lookup_other R src op w a q ha.1 ha.2

theorem fold_lookup_square (R : Resampler) (src : Img) (op : FPath)
    (l : List (String × Nat)) (w : World) (ds : String × Nat)
    (hmem : ds ∈ l)
    (hu : ∀ e ∈ l, "mipmap-" ++ e.1 = "mipmap-" ++ ds.1 → e = ds) :
    (l.foldl (densityStep R src op) w).lookupFile (squarePath op ds) =
      some (squareFile R src ds) := by
  induction l generalizing w with
  | nil => cases hmem
  | cons a t ih =>
    by_cases hds : ds ∈ t
    · exact ih _ hds (fun e he hn => hu e (List.mem_cons_of_mem a he) hn)
    · have ha : ds = a := by
        rcases List.mem_cons.mp hmem with h | h
        · exact h
        · exact absurd h hds
      subst ha
      have hframe : ∀ e ∈ t, squarePath op ds ≠ squarePath op e ∧
          squarePath op ds ≠ roundPath op e := by
        intro e he
        constructor
        · intro hc
          rcases child2_inj hc with ⟨h1, _⟩
          exact hds (hu e (List.mem_cons_of_mem ds he) h1.symm ▸ he)
        · exact child2_ne (Or.inr (by decide))
      calc ((ds :: t).foldl (densityStep R src op) w).lookupFile (squarePath op ds)
          = (t.foldl (densityStep R src op) (densityStep R src op w ds)).lookupFile
              (squarePath op ds) := rfl
        _ = (densityStep R src op w ds).lookupFile (squarePath op ds) :=
            fold_lookup_other R src op t _ _ hframe
        _ = some (squareFile R src ds) := step_lookup_square R src op w ds

theorem fold_lookup_round (R : Resampler) (src : Img) (op : FPath)
    (l : List (String × Nat)) (w : World) (ds : String × Nat)
    (hmem : ds ∈ l)
    (hu : ∀ e ∈ l, "mipmap-" ++ e.1 = "mipmap-" ++ ds.1 → e = ds) :
    (l.foldl (densityStep R src op) w).lookupFile (roundPath op ds) =
      some (roundFile R src ds) := by
  induction l generalizing w with
  | nil => cases hmem
  | cons a t ih =>
    by_cases hds : ds ∈ t
    · exact ih _ hds (fun e he hn => hu e (List.mem_cons_of_mem a he) hn)
    · have ha : ds = a := by
        rcases List.mem_cons.mp hmem with h | h
        · exact h
        · exact absurd h hds
      subst ha
      have hframe : ∀ e ∈ t, roundPath op ds ≠ squarePath op e ∧
          roundPath op ds ≠ roundPath op e := by
        intro e he
        constructor
        · exact child2_ne (Or.inr (by decide))
        · intro hc
          rcases child2_inj hc with ⟨h1, _⟩
          exact hds (hu e (List.mem_cons_of_mem ds he) h1.symm ▸ he)
      calc ((ds :: t).foldl (densityStep R src op) w).lookupFile (roundPath op ds)
          = (t.foldl (densityStep R src op) (densityStep R src op w ds)).lookupFile
              (roundPath op ds) := rfl
        _ = (densityStep R src op w ds).lookupFile (roundPath op ds) :=
            fold_lookup_other R src op t _ _ hframe
        _ = some (roundFile R src ds) := step_lookup_round R src op w ds

theorem fold_dirs_mem (R : Resampler) (src : Img) (op : FPath)
    (l : List (String × Nat)) (w : World) (q : FPath) :
    q ∈ (l.foldl (densityStep R src op) w).dirs ↔
      (∃ ds ∈ l, q ∈ (op.child ("mipmap-" ++ ds.1)).inits) ∨ q ∈ w.dirs := by
  induction l generalizing w with
  | nil => simp
  | cons a t ih =>
    calc q ∈ ((a :: t).foldl (densityStep R src op) w).dirs
        ↔ q ∈ (t.foldl (densityStep R src op) (densityStep R src op w a)).dirs := Iff.rfl
      _ ↔ (∃ ds ∈ t, q ∈ (op.child ("mipmap-" ++ ds.1)).inits) ∨
            q ∈ (densityStep R src op w a).dirs := ih _
      _ ↔ (∃ ds ∈ a :: t, q ∈ (op.child ("mipmap-" ++ ds.1)).inits) ∨ q ∈ w.dirs := by
          rw [step_dirs_mem]
          simp only [List.mem_cons]
          constructor
          · rintro (⟨ds, hds, hq⟩ | hq | hq)
            · exact Or.inl ⟨ds, Or.inr hds, hq⟩
            · exact Or.inl ⟨a, Or.inl rfl, hq⟩
            · exact Or.inr hq
          · rintro (⟨ds, hds | hds, hq⟩ | hq)
            · exact Or.inr (Or.inl (hds ▸ hq))
            · exact Or.inl ⟨ds, hds, hq⟩
            · exact Or.inr (Or.inr hq)

/-- In the fixed density table, the mipmap directory name determines the entry. -/
theorem densities_unique (ds : String × Nat) (hds : ds ∈ densities) :
    ∀ e ∈ densities, "mipmap-" ++ e.1 = "mipmap-" ++ ds.1 → e = ds := by
  simp only [densities, List.mem_cons, List.not_mem_nil, or_false] at hds
  rcases hds with rfl | rfl | rfl | rfl | rfl <;> decide

/-! ### Equations for `generate_icons` -/

theorem generate_icons_eq_some (R : Resampler) (sp op : FPath) (w : World) (img : Img)
    (h : openImageRGBA w sp = some img) :
    generate_icons R sp op w =
      (true, (densities.foldl (densityStep R img op)
        ((w.print (LogMsg.loading sp)).print (LogMsg.sourceSize img.width img.height))).print
          LogMsg.allGenerated) := by
  simp only [generate_icons]
  rw [show openImageRGBA (w.print (LogMsg.loading sp)) sp = some img from h]

theorem generate_icons_eq_none (R : Resampler) (sp op : FPath) (w : World)
    (h : openImageRGBA w sp = none) :
    generate_icons R sp op w = (false, (w.print (LogMsg.loading sp)).print (LogMsg.loadError sp)) := by
  simp only [generate_icons]
  rw [show openImageRGBA (w.print (LogMsg.loading sp)) sp = none from h]

/-! ### Pixel-level lemmas about `create_round_icon` -/

theorem create_round_icon_width (img : Img) : (create_round_icon img).width = img.width := rfl

theorem create_round_icon_height (img : Img) : (create_round_icon img).height = img.height := rfl

theorem create_round_icon_mode (img : Img) : (create_round_icon img).mode = "RGBA" := rfl

theorem create_round_icon_pix (img : Img) (x y : Nat)
    (hx : x < img.width) (hy : y < img.height) :
    (create_round_icon img).pix x y =
      ⟨(img.pix x y).r, (img.pix x y).g, (img.pix x y).b,
       if insideInscribedEllipse img.width img.height x y then 255 else 0⟩ := by
  simp only [create_round_icon, Img.putalpha, Img.paste, Img.newRGBA, Img.newL, drawEllipseFill]
  simp only [Nat.zero_le, Nat.zero_add, hx, hy, and_self, true_and, if_true, Nat.sub_zero]
  by_cases hins : insideInscribedEllipse img.width img.height x y
  · simp [hins]
  · simp [hins]

theorem center_inside (n : Nat) (hn : 0 < n) :
    insideInscribedEllipse n n (n / 2) (n / 2) = true := by
  simp only [insideInscribedEllipse, decide_eq_true_eq]
  have hsplit : n = 2 * (n / 2) ∨ n = 2 * (n / 2) + 1 := by omega
  rcases hsplit with h | h
  · have hd : 2 * ((n / 2 : Nat) : Int) + 1 - (n : Int) = 1 := by
      have hc : (n : Int) = 2 * ((n / 2 : Nat) : Int) := by exact_mod_cast h
      omega
    have hn2 : (2 : Int) ≤ (n : Int) := by
      have : 1 ≤ n / 2 := by omega
      omega
    rw [hd]
    have h4 : (4 : Int) ≤ (n : Int) ^ 2 := by nlinarith
    nlinarith [sq_nonneg ((n : Int))]
  · have hd : 2 * ((n / 2 : Nat) : Int) + 1 - (n : Int) = 0 := by
      have hc : (n : Int) = 2 * ((n / 2 : Nat) : Int) + 1 := by exact_mod_cast h
      omega
    rw [hd]
    nlinarith [sq_nonneg ((n : Int))]

/-! ### Mode normalization -/

theorem openImageRGBA_mode (w : World) (p : FPath) (img : Img)
    (h : openImageRGBA w p = some img) : img.mode = "RGBA" := by
  unfold openImageRGBA at h
  cases hl : w.lookupFile p with
  | none => rw [hl] at h; cases h
  | some d =>
    cases d with
    | xml t => rw [hl] at h; cases h
    | png i =>
      rw [hl] at h
      by_cases hm : i.mode = "RGBA"
      · simp only [hm, ne_eq, not_true_eq_false, if_false, Option.some.injEq] at h
        rw [← h]
        exact hm
      · simp only [ne_eq, hm, not_false_eq_true, if_true, Option.some.injEq] at h
        rw [← h]
        rfl

theorem resize_mode (R : Resampler) (img : Img) (a b : Nat) (f : Resampling) :
    (Img.resize R img a b f).mode = img.mode := rfl

theorem resize_width (R : Resampler) (img : Img) (a b : Nat) (f : Resampling) :
    (Img.resize R img a b f).width = a := rfl

theorem resize_height (R : Resampler) (img : Img) (a b : Nat) (f : Resampling) :
    (Img.resize R img a b f).height = b := rfl

/-! ### Lookup of the generated files after a successful `generate_icons` -/

theorem gen_lookup_square (R : Resampler) (sp op : FPath) (w : World) (img : Img)
    (ds : String × Nat) (h : openImageRGBA w sp = some img) (hds : ds ∈ densities) :
    (generate_icons R sp op w).2.lookupFile (squarePath op ds) = some (squareFile R img ds) := by
  rw [generate_icons_eq_some R sp op w img h]
  exact (lookupFile_print _ _ _).trans
    (fold_lookup_square R img op densities _ ds hds (densities_unique ds hds))

theorem gen_lookup_round (R : Resampler) (sp op : FPath) (w : World) (img : Img)
    (ds : String × Nat) (h : openImageRGBA w sp = some img) (hds : ds ∈ densities) :
    (generate_icons R sp op w).2.lookupFile (roundPath op ds) = some (roundFile R img ds) := by
  rw [generate_icons_eq_some R sp op w img h]
  exact (lookupFile_print _ _ _).trans
    (fold_lookup_round R img op densities _ ds hds (densities_unique ds hds))

/-! ### Lemmas about one resource-copy iteration -/

theorem copyStep_lookup_other (sd dd : FPath) (w : World) (fs : String × String)
    (q : FPath) (h : q ≠ xmlDest dd fs) :
    (copyStep sd dd w fs).lookupFile q = w.lookupFile q := by
  simp only [copyStep]
  cases hl : (w.mkdirParents (xmlDestDir dd fs)).lookupFile (xmlSrc sd fs) with
  | none => rfl
  | some d => exact lookupFile_save_ne w (xmlDest dd fs) q d h

theorem copyStep_lookup_dest (sd dd : FPath) (w : World) (fs : String × String)
    (d : FileData) (h : w.lookupFile (xmlSrc sd fs) = some d) :
    (copyStep sd dd w fs).lookupFile (xmlDest dd fs) = some d := by
  simp only [copyStep]
  rw [show (w.mkdirParents (xmlDestDir dd fs)).lookupFile (xmlSrc sd fs) = some d from h]
  exact lookupFile_save_self w (xmlDest dd fs) d

theorem copyStep_log_mono (sd dd : FPath) (w : World) (fs : String × String)
    (m : LogMsg) (h : m ∈ w.log) : m ∈ (copyStep sd dd w fs).log := by
  simp only [copyStep]
  cases hl : (w.mkdirParents (xmlDestDir dd fs)).lookupFile (xmlSrc sd fs) with
  | none => exact List.mem_cons_of_mem _ h
  | some d => exact List.mem_cons_of_mem _ h

theorem copyStep_missing (sd dd : FPath) (w : World) (fs : String × String)
    (h : w.lookupFile (xmlSrc sd fs) = none) :
    LogMsg.sourceNotFound (xmlSrc sd fs) ∈ (copyStep sd dd w fs).log := by
  simp only [copyStep]
  rw [show (w.mkdirParents (xmlDestDir dd fs)).lookupFile (xmlSrc sd fs) = none from h]
  exact List.mem_cons_self _ _

theorem copyStep_dirs_mem (sd dd : FPath) (w : World) (fs : String × String) (q : FPath) :
    q ∈ (copyStep sd dd w fs).dirs ↔ q ∈ (xmlDestDir dd fs).inits ∨ q ∈ w.dirs := by
  simp only [copyStep]
  cases hl : (w.mkdirParents (xmlDestDir dd fs)).lookupFile (xmlSrc sd fs) with
  | none => simp [World.mkdirParents, World.print]
  | some d => simp [World.mkdirParents, World.print, World.save]

/-! ### The claims -/

/-- C1: for every square input image, `create_round_icon` keeps the pixel
dimensions of the square image, and the alpha channel of the result is fully
replaced (not multiplied or blended) by the single-channel inscribed-ellipse
mask — 255 inside the ellipse, 0 outside; in particular every pixel outside
the inscribed ellipse has alpha 0 and the center pixel has alpha 255. -/
theorem claim1_round_icon (img : Img) (n : Nat)
    (hw : img.width = n) (hh : img.height = n) (hn : 0 < n) :
    (create_round_icon img).width = n ∧
    (create_round_icon img).height = n ∧
    (∀ x y, x < n → y < n →
      (create_round_icon img).pix x y =
        ⟨(img.pix x y).r, (img.pix x y).g, (img.pix x y).b,
         if insideInscribedEllipse n n x y then 255 else 0⟩) ∧
    (∀ x y, x < n → y < n → insideInscribedEllipse n n x y = false →
      ((create_round_icon img).pix x y).a = 0) ∧
    ((create_round_icon img).pix (n / 2) (n / 2)).a = 255 := by
  subst hw
  have hpix : ∀ x y, x < img.width → y < img.width →
      (create_round_icon img).pix x y =
        ⟨(img.pix x y).r, (img.pix x y).g, (img.pix x y).b,
         if insideInscribedEllipse img.width img.width x y then 255 else 0⟩ := by
    intro x y hx hy
    rw [create_round_icon_pix img x y hx (by rw [hh]; exact hy), hh]
  refine ⟨rfl, (create_round_icon_height img).trans hh, hpix, ?_, ?_⟩
  · intro x y hx hy hout
    rw [hpix x y hx hy]
    simp [hout]
  · have hx : img.width / 2 < img.width := Nat.div_lt_self hn one_lt_two
    rw [hpix _ _ hx hx, center_inside img.width hn]
    simp

/-- Witness for C1: a concrete 4×4 square image, evaluated at the interior
pixel (1, 1), the corner pixel (0, 0) (outside the ellipse) and the center. -/
theorem claim1_witness :
    (create_round_icon (Img.newRGBA 4 4 ⟨10, 20, 30, 40⟩)).width = 4 ∧
    (create_round_icon (Img.newRGBA 4 4 ⟨10, 20, 30, 40⟩)).height = 4 ∧
    (create_round_icon (Img.newRGBA 4 4 ⟨10, 20, 30, 40⟩)).pix 1 1 =
      ⟨10, 20, 30, if insideInscribedEllipse 4 4 1 1 then 255 else 0⟩ ∧
    ((create_round_icon (Img.newRGBA 4 4 ⟨10, 20, 30, 40⟩)).pix 0 0).a = 0 ∧
    ((create_round_icon (Img.newRGBA 4 4 ⟨10, 20, 30, 40⟩)).pix (4 / 2) (4 / 2)).a = 255 := by
  have h := claim1_round_icon (Img.newRGBA 4 4 ⟨10, 20, 30, 40⟩) 4 rfl rfl (by decide)
  exact ⟨h.1, h.2.1, h.2.2.1 1 1 (by decide) (by decide),
         h.2.2.2.1 0 0 (by decide) (by decide) (by decide), h.2.2.2.2⟩

/-- C2: for each of the five densities, `generate_icons` writes to
`mipmap-<density>/ic_launcher.png` (overwriting whatever was there) the
square image resized to exactly `(edge, edge)` with the LANCZOS filter. -/
theorem claim2_density_outputs (R : Resampler) (sp op : FPath) (w : World) (img : Img)
    (h : openImageRGBA w sp = some img) :
    ∀ ds ∈ densities,
      (generate_icons R sp op w).2.lookupFile (squarePath op ds) =
        some (FileData.png (Img.resize R img ds.2 ds.2 Resampling.lanczos)) ∧
      (Img.resize R img ds.2 ds.2 Resampling.lanczos).width = ds.2 ∧
      (Img.resize R img ds.2 ds.2 Resampling.lanczos).height = ds.2 :=
  fun ds hds => ⟨gen_lookup_square R sp op w img ds h hds, rfl, rfl⟩

/-- Witness for C2: the concrete 512×512 RGB source icon, at density mdpi. -/
theorem claim2_witness :
    (generate_icons testRes (sourceIconPath testRoot) (androidResPath testRoot)
        testWorld).2.lookupFile (squarePath (androidResPath testRoot) ("mdpi", 48)) =
      some (FileData.png
        (Img.resize testRes (Img.convertRGBA testImg) 48 48 Resampling.lanczos)) ∧
    (Img.resize testRes (Img.convertRGBA testImg) 48 48 Resampling.lanczos).width = 48 ∧
    (Img.resize testRes (Img.convertRGBA testImg) 48 48 Resampling.lanczos).height = 48 :=
  claim2_density_outputs testRes (sourceIconPath testRoot) (androidResPath testRoot) testWorld
    (Img.convertRGBA testImg) rfl ("mdpi", 48) (by decide)

/-- C3: the density table has exactly the five entries
mdpi(48) < hdpi(72) < xhdpi(96) < xxhdpi(144) < xxxhdpi(192), strictly
increasing in that fixed order, and `generate_icons` iterates them in exactly
that order (witnessed by the full console log of a successful run, most
recent message first). -/
theorem claim3_density_table :
    densities = [("mdpi", 48), ("hdpi", 72), ("xhdpi", 96), ("xxhdpi", 144), ("xxxhdpi", 192)] ∧
    List.Chain' (fun a b : String × Nat => a.2 < b.2) densities ∧
    ∀ (R : Resampler) (sp op : FPath) (w : World) (img : Img),
      openImageRGBA w sp = some img →
      (generate_icons R sp op w).2.log =
        LogMsg.allGenerated ::
        LogMsg.created (roundPath op ("xxxhdpi", 192)) 192 ::
        LogMsg.created (squarePath op ("xxxhdpi", 192)) 192 ::
        LogMsg.created (roundPath op ("xxhdpi", 144)) 144 ::
        LogMsg.created (squarePath op ("xxhdpi", 144)) 144 ::
        LogMsg.created (roundPath op ("xhdpi", 96)) 96 ::
        LogMsg.created (squarePath op ("xhdpi", 96)) 96 ::
        LogMsg.created (roundPath op ("hdpi", 72)) 72 ::
        LogMsg.created (squarePath op ("hdpi", 72)) 72 ::
        LogMsg.created (roundPath op ("mdpi", 48)) 48 ::
        LogMsg.created (squarePath op ("mdpi", 48)) 48 ::
        LogMsg.sourceSize img.width img.height ::
        LogMsg.loading sp :: w.log := by
  refine ⟨rfl, by norm_num [densities, List.chain'_cons, List.chain'_singleton], ?_⟩
  intro R sp op w img h
  rw [generate_icons_eq_some R sp op w img h]
  rfl

/-- Witness for C3: the log of the concrete successful run. -/
theorem claim3_witness :
    densities = [("mdpi", 48), ("hdpi", 72), ("xhdpi", 96), ("xxhdpi", 144), ("xxxhdpi", 192)] ∧
    List.Chain' (fun a b : String × Nat => a.2 < b.2) densities ∧
    (generate_icons testRes (sourceIconPath testRoot) (androidResPath testRoot)
        testWorld).2.log =
      LogMsg.allGenerated ::
      LogMsg.created (roundPath (androidResPath testRoot) ("xxxhdpi", 192)) 192 ::
      LogMsg.created (squarePath (androidResPath testRoot) ("xxxhdpi", 192)) 192 ::
      LogMsg.created (roundPath (androidResPath testRoot) ("xxhdpi", 144)) 144 ::
      LogMsg.created (squarePath (androidResPath testRoot) ("xxhdpi", 144)) 144 ::
      LogMsg.created (roundPath (androidResPath testRoot) ("xhdpi", 96)) 96 ::
      LogMsg.created (squarePath (androidResPath testRoot) ("xhdpi", 96)) 96 ::
      LogMsg.created (roundPath (androidResPath testRoot) ("hdpi", 72)) 72 ::
      LogMsg.created (squarePath (androidResPath testRoot) ("hdpi", 72)) 72 ::
      LogMsg.created (roundPath (androidResPath testRoot) ("mdpi", 48)) 48 ::
      LogMsg.created (squarePath (androidResPath testRoot) ("mdpi", 48)) 48 ::
      LogMsg.sourceSize (Img.convertRGBA testImg).width (Img.convertRGBA testImg).height ::
      LogMsg.loading (sourceIconPath testRoot) :: testWorld.log :=
  ⟨claim3_density_table.1, claim3_density_table.2.1,
   claim3_density_table.2.2 testRes (sourceIconPath testRoot) (androidResPath testRoot)
     testWorld (Img.convertRGBA testImg) rfl⟩

/-- C4: whatever the decoded source's pixel format, the image entering the
resize loop is RGBA, so every generated square icon and every round variant
is RGBA. -/
theorem claim4_rgba_everywhere (R : Resampler) (sp op : FPath) (w : World) (img : Img)
    (h : openImageRGBA w sp = some img) :
    img.mode = "RGBA" ∧
    ∀ ds ∈ densities,
      (generate_icons R sp op w).2.lookupFile (squarePath op ds) = some (squareFile R img ds) ∧
      (Img.resize R img ds.2 ds.2 Resampling.lanczos).mode = "RGBA" ∧
      (generate_icons R sp op w).2.lookupFile (roundPath op ds) = some (roundFile R img ds) ∧
      (create_round_icon (Img.resize R img ds.2 ds.2 Resampling.lanczos)).mode = "RGBA" := by
  have hm := openImageRGBA_mode w sp img h
  exact ⟨hm, fun ds hds =>
    ⟨gen_lookup_square R sp op w img ds h hds,
     (resize_mode R img ds.2 ds.2 Resampling.lanczos).trans hm,
     gen_lookup_round R sp op w img ds h hds,
     create_round_icon_mode _⟩⟩

/-- Witness for C4: the concrete RGB (alpha-less) source icon, at density
xxxhdpi. -/
theorem claim4_witness :
    (Img.convertRGBA testImg).mode = "RGBA" ∧
    (generate_icons testRes (sourceIconPath testRoot) (androidResPath testRoot)
        testWorld).2.lookupFile (squarePath (androidResPath testRoot) ("xxxhdpi", 192)) =
      some (squareFile testRes (Img.convertRGBA testImg) ("xxxhdpi", 192)) ∧
    (Img.resize testRes (Img.convertRGBA testImg) 192 192 Resampling.lanczos).mode = "RGBA" ∧
    (generate_icons testRes (sourceIconPath testRoot) (androidResPath testRoot)
        testWorld).2.lookupFile (roundPath (androidResPath testRoot) ("xxxhdpi", 192)) =
      some (roundFile testRes (Img.convertRGBA testImg) ("xxxhdpi", 192)) ∧
    (create_round_icon
      (Img.resize testRes (Img.convertRGBA testImg) 192 192 Resampling.lanczos)).mode = "RGBA" := by
  have h := claim4_rgba_everywhere testRes (sourceIconPath testRoot) (androidResPath testRoot)
    testWorld (Img.convertRGBA testImg) rfl
  exact ⟨h.1, (h.2 ("xxxhdpi", 192) (by decide)).1, (h.2 ("xxxhdpi", 192) (by decide)).2.1,
         (h.2 ("xxxhdpi", 192) (by decide)).2.2.1, (h.2 ("xxxhdpi", 192) (by decide)).2.2.2⟩

/-- C9: when decoding fails, `generate_icons` returns `false` having written
no file and created no directory — the decode attempt precedes the whole
density loop, so the output tree is unchanged. -/
theorem claim9_decode_failure_pure (R : Resampler) (sp op : FPath) (w : World)
    (h : openImageRGBA w sp = none) :
    (generate_icons R sp op w).1 = false ∧
    (generate_icons R sp op w).2.files = w.files ∧
    (generate_icons R sp op w).2.dirs = w.dirs := by
  rw [generate_icons_eq_none R sp op w h]
  exact ⟨rfl, rfl, rfl⟩

/-- Witness for C9: a world with no source icon at all. -/
theorem claim9_witness :
    (generate_icons testRes (sourceIconPath testRoot) (androidResPath testRoot) emptyWorld).1
      = false ∧
    (generate_icons testRes (sourceIconPath testRoot) (androidResPath testRoot)
      emptyWorld).2.files = emptyWorld.files ∧
    (generate_icons testRes (sourceIconPath testRoot) (androidResPath testRoot)
      emptyWorld).2.dirs = emptyWorld.dirs :=
  claim9_decode_failure_pure testRes (sourceIconPath testRoot) (androidResPath testRoot)
    emptyWorld rfl

/-- C10: each density's outputs are a function of the converted source image
and the density entry alone — the square icon is resized directly from the
source image and the round icon is derived from that fresh square image in
new image objects — so running the density loop over any list containing the
entry, in any order, around any prior state, yields the same two files at
that density's paths. -/
theorem claim10_density_independence (R : Resampler) (src : Img) (op : FPath)
    (l1 l2 : List (String × Nat)) (w1 w2 : World) (ds : String × Nat)
    (h1 : ds ∈ l1) (h2 : ds ∈ l2)
    (hu1 : ∀ e ∈ l1, "mipmap-" ++ e.1 = "mipmap-" ++ ds.1 → e = ds)
    (hu2 : ∀ e ∈ l2, "mipmap-" ++ e.1 = "mipmap-" ++ ds.1 → e = ds) :
    (l1.foldl (densityStep R src op) w1).lookupFile (squarePath op ds) =
      some (squareFile R src ds) ∧
    (l2.foldl (densityStep R src op) w2).lookupFile (squarePath op ds) =
      some (squareFile R src ds) ∧
    (l1.foldl (densityStep R src op) w1).lookupFile (roundPath op ds) =
      some (roundFile R src ds) ∧
    (l2.foldl (densityStep R src op) w2).lookupFile (roundPath op ds) =
      some (roundFile R src ds) :=
  ⟨fold_lookup_square R src op l1 w1 ds h1 hu1,
   fold_lookup_square R src op l2 w2 ds h2 hu2,
   fold_lookup_round R src op l1 w1 ds h1 hu1,
   fold_lookup_round R src op l2 w2 ds h2 hu2⟩

/-- Witness for C10: the density list in its given order versus reversed. -/
theorem claim10_witness :
    (densities.foldl (densityStep testRes testImg (androidResPath testRoot))
        emptyWorld).lookupFile (squarePath (androidResPath testRoot) ("xhdpi", 96)) =
      some (squareFile testRes testImg ("xhdpi", 96)) ∧
    (densities.reverse.foldl (densityStep testRes testImg (androidResPath testRoot))
        testWorld).lookupFile (squarePath (androidResPath testRoot) ("xhdpi", 96)) =
      some (squareFile testRes testImg ("xhdpi", 96)) ∧
    (densities.foldl (densityStep testRes testImg (androidResPath testRoot))
        emptyWorld).lookupFile (roundPath (androidResPath testRoot) ("xhdpi", 96)) =
      some (roundFile testRes testImg ("xhdpi", 96)) ∧
    (densities.reverse.foldl (densityStep testRes testImg (androidResPath testRoot))
        testWorld).lookupFile (roundPath (androidResPath testRoot) ("xhdpi", 96)) =
      some (roundFile testRes testImg ("xhdpi", 96)) :=
  claim10_density_independence testRes testImg (androidResPath testRoot)
    densities densities.reverse emptyWorld testWorld ("xhdpi", 96)
    (by decide) (by decide) (by decide) (by decide)

/-- C5: `generate_icons` returns true exactly when the source image decoded
successfully; on a decode failure the orchestrator exits with status 1. -/
theorem claim5_success_flag (R : Resampler) (sp op root : FPath) (w w2 : World) :
    ((generate_icons R sp op w).1 = (openImageRGBA w sp).isSome) ∧
    (w2.pathExists (sourceIconPath root) = true →
     w2.pathExists (androidResPath root) = true →
     openImageRGBA w2 (sourceIconPath root) = none →
     (mainEntry R root w2).1 = 1) := by
  constructor
  · cases h : openImageRGBA w sp with
    | none => rw [generate_icons_eq_none R sp op w h]; rfl
    | some img => rw [generate_icons_eq_some R sp op w img h]; rfl
  · intro h1 h2 hdec
    simp only [mainEntry]
    rw [show (w2.print LogMsg.banner).pathExists (sourceIconPath root) = true from h1,
        show (w2.print LogMsg.banner).pathExists (androidResPath root) = true from h2,
        generate_icons_eq_none R (sourceIconPath root) (androidResPath root)
          (w2.print LogMsg.banner)
          (show openImageRGBA (w2.print LogMsg.banner) (sourceIconPath root) = none from hdec)]
    simp

/-- Witness for C5: a source file Pillow cannot decode. -/
theorem claim5_witness :
    ((generate_icons testRes (sourceIconPath testRoot) (androidResPath testRoot) testWorld).1 =
      (openImageRGBA testWorld (sourceIconPath testRoot)).isSome) ∧
    (mainEntry testRes testRoot badIconWorld).1 = 1 :=
  ⟨(claim5_success_flag testRes (sourceIconPath testRoot) (androidResPath testRoot) testRoot
      testWorld badIconWorld).1,
   (claim5_success_flag testRes (sourceIconPath testRoot) (androidResPath testRoot) testRoot
      testWorld badIconWorld).2 rfl rfl rfl⟩

/-- C6: a missing source icon aborts with exit status 1 before any directory
is created; a missing destination root aborts with exit status 1 before any
file is written (in both cases the filesystem is untouched). -/
theorem claim6_path_validation (R : Resampler) (root : FPath) (w : World) :
    (w.pathExists (sourceIconPath root) = false →
      (mainEntry R root w).1 = 1 ∧
      (mainEntry R root w).2.dirs = w.dirs ∧
      (mainEntry R root w).2.files = w.files) ∧
    (w.pathExists (sourceIconPath root) = true →
     w.pathExists (androidResPath root) = false →
      (mainEntry R root w).1 = 1 ∧
      (mainEntry R root w).2.dirs = w.dirs ∧
      (mainEntry R root w).2.files = w.files) := by
  constructor
  · intro h1
    simp only [mainEntry]
    rw [show (w.print LogMsg.banner).pathExists (sourceIconPath root) = false from h1]
    exact ⟨rfl, rfl, rfl⟩
  · intro h1 h2
    simp only [mainEntry]
    rw [show (w.print LogMsg.banner).pathExists (sourceIconPath root) = true from h1,
        show (w.print LogMsg.banner).pathExists (androidResPath root) = false from h2]
    exact ⟨rfl, rfl, rfl⟩

/-- Witness for C6: an empty world (no icon) and a world missing the
destination scaffold. -/
theorem claim6_witness :
    ((mainEntry testRes testRoot emptyWorld).1 = 1 ∧
     (mainEntry testRes testRoot emptyWorld).2.dirs = emptyWorld.dirs ∧
     (mainEntry testRes testRoot emptyWorld).2.files = emptyWorld.files) ∧
    ((mainEntry testRes testRoot noResWorld).1 = 1 ∧
     (mainEntry testRes testRoot noResWorld).2.dirs = noResWorld.dirs ∧
     (mainEntry testRes testRoot noResWorld).2.files = noResWorld.files) :=
  ⟨(claim6_path_validation testRes testRoot emptyWorld).1 rfl,
   (claim6_path_validation testRes testRoot noResWorld).2 rfl rfl⟩

/-- C7: with an unchanged (and decodable) source icon that is not itself one
of the output files, running icon generation a second time succeeds again —
pre-existing output directories and files cause no error — and overwrites the
outputs with the same results: the resulting filesystems are equivalent. -/
theorem claim7_idempotent (R : Resampler) (sp op : FPath) (w : World) (img : Img)
    (hdec : openImageRGBA w sp = some img)
    (hsp : ∀ ds ∈ densities, sp ≠ squarePath op ds ∧ sp ≠ roundPath op ds) :
    (generate_icons R sp op w).1 = true ∧
    (generate_icons R sp op (generate_icons R sp op w).2).1 = true ∧
    World.sameFS (generate_icons R sp op (generate_icons R sp op w).2).2
      (generate_icons R sp op w).2 := by
  have hW1 : (generate_icons R sp op w).2 =
      (densities.foldl (densityStep R img op)
        ((w.print (LogMsg.loading sp)).print (LogMsg.sourceSize img.width img.height))).print
        LogMsg.allGenerated := by
    rw [generate_icons_eq_some R sp op w img hdec]
  have hlook1 : (generate_icons R sp op w).2.lookupFile sp = w.lookupFile sp := by
    rw [hW1, lookupFile_print, fold_lookup_other R img op densities _ sp hsp]
    rfl
  have hdec1 : openImageRGBA (generate_icons R sp op w).2 sp = some img := by
    rw [openImageRGBA_congr _ w sp hlook1]
    exact hdec
  have hW2 : (generate_icons R sp op (generate_icons R sp op w).2).2 =
      (densities.foldl (densityStep R img op)
        (((generate_icons R sp op w).2.print (LogMsg.loading sp)).print
          (LogMsg.sourceSize img.width img.height))).print LogMsg.allGenerated := by
    rw [generate_icons_eq_some _ _ _ _ img hdec1]
  refine ⟨by rw [generate_icons_eq_some R sp op w img hdec],
          by rw [generate_icons_eq_some _ _ _ _ img hdec1], ?_, ?_⟩
  · intro p
    by_cases hp : ∀ ds ∈ densities, p ≠ squarePath op ds ∧ p ≠ roundPath op ds
    · rw [hW2, lookupFile_print, fold_lookup_other R img op densities _ p hp]
      rfl
    · push_neg at hp
      obtain ⟨ds, hds, hcase⟩ := hp
      have hcase2 : p = squarePath op ds ∨ p = roundPath op ds := by
        by_cases hsq : p = squarePath op ds
        · exact Or.inl hsq
        · exact Or.inr (hcase hsq)
      rcases hcase2 with rfl | rfl
      · calc (generate_icons R sp op (generate_icons R sp op w).2).2.lookupFile
              (squarePath op ds)
            = some (squareFile R img ds) :=
              gen_lookup_square R sp op (generate_icons R sp op w).2 img ds hdec1 hds
          _ = (generate_icons R sp op w).2.lookupFile (squarePath op ds) :=
              (gen_lookup_square R sp op w img ds hdec hds).symm
      · calc (generate_icons R sp op (generate_icons R sp op w).2).2.lookupFile
              (roundPath op ds)
            = some (roundFile R img ds) :=
              gen_lookup_round R sp op (generate_icons R sp op w).2 img ds hdec1 hds
          _ = (generate_icons R sp op w).2.lookupFile (roundPath op ds) :=
              (gen_lookup_round R sp op w img ds hdec hds).symm
  · intro p
    have hd1 : p ∈ (generate_icons R sp op w).2.dirs ↔
        (∃ ds ∈ densities, p ∈ (op.child ("mipmap-" ++ ds.1)).inits) ∨ p ∈ w.dirs := by
      rw [hW1]
      exact fold_dirs_mem R img op densities _ p
    have hd2 : p ∈ (generate_icons R sp op (generate_icons R sp op w).2).2.dirs ↔
        (∃ ds ∈ densities, p ∈ (op.child ("mipmap-" ++ ds.1)).inits) ∨
          p ∈ (generate_icons R sp op w).2.dirs := by
      rw [hW2]
      exact fold_dirs_mem R img op densities _ p
    simp only [World.dirExists]
    rw [decide_eq_decide, hd2, hd1, ← or_assoc, or_self]

/-- Witness for C7: the concrete run repeated on its own output. -/
theorem claim7_witness :
    (generate_icons testRes (sourceIconPath testRoot) (androidResPath testRoot) testWorld).1
      = true ∧
    (generate_icons testRes (sourceIconPath testRoot) (androidResPath testRoot)
      (generate_icons testRes (sourceIconPath testRoot) (androidResPath testRoot)
        testWorld).2).1 = true ∧
    World.sameFS
      (generate_icons testRes (sourceIconPath testRoot) (androidResPath testRoot)
        (generate_icons testRes (sourceIconPath testRoot) (androidResPath testRoot)
          testWorld).2).2
      (generate_icons testRes (sourceIconPath testRoot) (androidResPath testRoot)
        testWorld).2 :=
  claim7_idempotent testRes (sourceIconPath testRoot) (androidResPath testRoot) testWorld
    (Img.convertRGBA testImg) rfl (by decide)

/-- Unfolding of the four-iteration resource-copy loop. -/
theorem copy_xml_eq (sd dd : FPath) (w : World) :
    copy_xml_resources sd dd w =
      copyStep sd dd (copyStep sd dd (copyStep sd dd (copyStep sd dd
        (w.print LogMsg.copyingXml)
        ("values/strings.xml", "values"))
        ("values/styles.xml", "values"))
        ("values/colors.xml", "values"))
        ("drawable/splashscreen.xml", "drawable") := rfl

/-- C8: `copy_xml_resources` walks the fixed ordered four-entry table; for
each entry it creates the destination subdirectory (no error when it exists),
and if the source file exists it is copied — the file value wholesale, hence
content and metadata — to `dest_dir/subdir/<basename>`, overwriting any
existing destination file; a missing source file only produces a warning
line, the remaining files are still copied, and the whole process still
exits with status 0. -/
theorem claim8_copy_xml (sd dd : FPath) (w : World)
    (hdisj : ∀ fsa ∈ xml_files, ∀ fsb ∈ xml_files, xmlSrc sd fsa ≠ xmlDest dd fsb) :
    xml_files = [("values/strings.xml", "values"), ("values/styles.xml", "values"),
                 ("values/colors.xml", "values"), ("drawable/splashscreen.xml", "drawable")] ∧
    (∀ fs ∈ xml_files,
      (copy_xml_resources sd dd w).dirExists (xmlDestDir dd fs) = true ∧
      (∀ d, w.lookupFile (xmlSrc sd fs) = some d →
        (copy_xml_resources sd dd w).lookupFile (xmlDest dd fs) = some d) ∧
      (w.lookupFile (xmlSrc sd fs) = none →
        LogMsg.sourceNotFound (xmlSrc sd fs) ∈ (copy_xml_resources sd dd w).log)) ∧
    (∀ (R : Resampler) (root : FPath) (w2 : World) (img : Img),
      w2.pathExists (sourceIconPath root) = true →
      w2.pathExists (androidResPath root) = true →
      openImageRGBA w2 (sourceIconPath root) = some img →
      (mainEntry R root w2).1 = 0) := by
  have hm1 : ("values/strings.xml", "values") ∈ xml_files := by decide
  have hm2 : ("values/styles.xml", "values") ∈ xml_files := by decide
  have hm3 : ("values/colors.xml", "values") ∈ xml_files := by decide
  have hm4 : ("drawable/splashscreen.xml", "drawable") ∈ xml_files := by decide
  refine ⟨rfl, ?_, ?_⟩
  · intro fs hfs
    simp only [xml_files, List.mem_cons, List.not_mem_nil, or_false] at hfs
    rcases hfs with rfl | rfl | rfl | rfl
    · refine ⟨?_, ?_, ?_⟩
      · rw [copy_xml_eq sd dd w]
        simp only [World.dirExists, decide_eq_true_eq]
        rw [copyStep_dirs_mem, copyStep_dirs_mem, copyStep_dirs_mem, copyStep_dirs_mem]
        exact Or.inr (Or.inr (Or.inr (Or.inl (self_mem_inits _))))
      · intro d hd
        rw [copy_xml_eq sd dd w,
            copyStep_lookup_other sd dd _ ("drawable/splashscreen.xml", "drawable")
              (xmlDest dd ("values/strings.xml", "values")) (child2_ne (Or.inr (by decide))),
            copyStep_lookup_other sd dd _ ("values/colors.xml", "values")
              (xmlDest dd ("values/strings.xml", "values")) (child2_ne (Or.inr (by decide))),
            copyStep_lookup_other sd dd _ ("values/styles.xml", "values")
              (xmlDest dd ("values/strings.xml", "values")) (child2_ne (Or.inr (by decide)))]
        exact copyStep_lookup_dest sd dd _ _ d hd
      · intro h0
        rw [copy_xml_eq sd dd w]
        apply copyStep_log_mono
        apply copyStep_log_mono
        apply copyStep_log_mono
        exact copyStep_missing sd dd _ _ h0
    · refine ⟨?_, ?_, ?_⟩
      · rw [copy_xml_eq sd dd w]
        simp only [World.dirExists, decide_eq_true_eq]
        rw [copyStep_dirs_mem, copyStep_dirs_mem, copyStep_dirs_mem, copyStep_dirs_mem]
        exact Or.inr (Or.inr (Or.inl (self_mem_inits _)))
      · intro d hd
        rw [copy_xml_eq sd dd w,
            copyStep_lookup_other sd dd _ ("drawable/splashscreen.xml", "drawable")
              (xmlDest dd ("values/styles.xml", "values")) (child2_ne (Or.inr (by decide))),
            copyStep_lookup_other sd dd _ ("values/colors.xml", "values")
              (xmlDest dd ("values/styles.xml", "values")) (child2_ne (Or.inr (by decide)))]
        refine copyStep_lookup_dest sd dd _ _ d ?_
        rw [copyStep_lookup_other sd dd _ ("values/strings.xml", "values")
              (xmlSrc sd ("values/styles.xml", "values")) (hdisj _ hm2 _ hm1)]
        exact hd
      · intro h0
        rw [copy_xml_eq sd dd w]
        apply copyStep_log_mono
        apply copyStep_log_mono
        refine copyStep_missing sd dd _ _ ?_
        rw [copyStep_lookup_other sd dd _ ("values/strings.xml", "values")
              (xmlSrc sd ("values/styles.xml", "values")) (hdisj _ hm2 _ hm1)]
        exact h0
    · refine ⟨?_, ?_, ?_⟩
      · rw [copy_xml_eq sd dd w]
        simp only [World.dirExists, decide_eq_true_eq]
        rw [copyStep_dirs_mem, copyStep_dirs_mem, copyStep_dirs_mem, copyStep_dirs_mem]
        exact Or.inr (Or.inl (self_mem_inits _))
      · intro d hd
        rw [copy_xml_eq sd dd w,
            copyStep_lookup_other sd dd _ ("drawable/splashscreen.xml", "drawable")
              (xmlDest dd ("values/colors.xml", "values")) (child2_ne (Or.inr (by decide)))]
        refine copyStep_lookup_dest sd dd _ _ d ?_
        rw [copyStep_lookup_other sd dd _ ("values/styles.xml", "values")
              (xmlSrc sd ("values/colors.xml", "values")) (hdisj _ hm3 _ hm2),
            copyStep_lookup_other sd dd _ ("values/strings.xml", "values")
              (xmlSrc sd ("values/colors.xml", "values")) (hdisj _ hm3 _ hm1)]
        exact hd
      · intro h0
        rw [copy_xml_eq sd dd w]
        apply copyStep_log_mono
        refine copyStep_missing sd dd _ _ ?_
        rw [copyStep_lookup_other sd dd _ ("values/styles.xml", "values")
              (xmlSrc sd ("values/colors.xml", "values")) (hdisj _ hm3 _ hm2),
            copyStep_lookup_other sd dd _ ("values/strings.xml", "values")
              (xmlSrc sd ("values/colors.xml", "values")) (hdisj _ hm3 _ hm1)]
        exact h0
    · refine ⟨?_, ?_, ?_⟩
      · rw [copy_xml_eq sd dd w]
        simp only [World.dirExists, decide_eq_true_eq]
        rw [copyStep_dirs_mem]
        exact Or.inl (self_mem_inits _)
      · intro d hd
        rw [copy_xml_eq sd dd w]
        refine copyStep_lookup_dest sd dd _ _ d ?_
        rw [copyStep_lookup_other sd dd _ ("values/colors.xml", "values")
              (xmlSrc sd ("drawable/splashscreen.xml", "drawable")) (hdisj _ hm4 _ hm3),
            copyStep_lookup_other sd dd _ ("values/styles.xml", "values")
              (xmlSrc sd ("drawable/splashscreen.xml", "drawable")) (hdisj _ hm4 _ hm2),
            copyStep_lookup_other sd dd _ ("values/strings.xml", "values")
              (xmlSrc sd ("drawable/splashscreen.xml", "drawable")) (hdisj _ hm4 _ hm1)]
        exact hd
      · intro h0
        rw [copy_xml_eq sd dd w]
        refine copyStep_missing sd dd _ _ ?_
        rw [copyStep_lookup_other sd dd _ ("values/colors.xml", "values")
              (xmlSrc sd ("drawable/splashscreen.xml", "drawable")) (hdisj _ hm4 _ hm3),
            copyStep_lookup_other sd dd _ ("values/styles.xml", "values")
              (xmlSrc sd ("drawable/splashscreen.xml", "drawable")) (hdisj _ hm4 _ hm2),
            copyStep_lookup_other sd dd _ ("values/strings.xml", "values")
              (xmlSrc sd ("drawable/splashscreen.xml", "drawable")) (hdisj _ hm4 _ hm1)]
        exact h0
  · intro R root w2 img h1 h2 hdec2
    simp only [mainEntry]
    rw [show (w2.print LogMsg.banner).pathExists (sourceIconPath root) = true from h1,
        show (w2.print LogMsg.banner).pathExists (androidResPath root) = true from h2,
        generate_icons_eq_some R (sourceIconPath root) (androidResPath root)
          (w2.print LogMsg.banner) img
          (show openImageRGBA (w2.print LogMsg.banner) (sourceIconPath root) = some img
            from hdec2)]
    simp

/-- Witness for C8: a source tree missing `drawable/splashscreen.xml` only. -/
theorem claim8_witness :
    (copy_xml_resources ["fix"] ["res"] xmlWorld).dirExists
      (xmlDestDir ["res"] ("values/strings.xml", "values")) = true ∧
    (copy_xml_resources ["fix"] ["res"] xmlWorld).lookupFile
      (xmlDest ["res"] ("values/strings.xml", "values")) = some (FileData.xml "strings") ∧
    LogMsg.sourceNotFound (xmlSrc ["fix"] ("drawable/splashscreen.xml", "drawable")) ∈
      (copy_xml_resources ["fix"] ["res"] xmlWorld).log ∧
    (mainEntry testRes testRoot testWorld).1 = 0 := by
  have h := claim8_copy_xml ["fix"] ["res"] xmlWorld (by decide)
  exact ⟨(h.2.1 ("values/strings.xml", "values") (by decide)).1,
         (h.2.1 ("values/strings.xml", "values") (by decide)).2.1 (FileData.xml "strings") rfl,
         (h.2.1 ("drawable/splashscreen.xml", "drawable") (by decide)).2.2 rfl,
         h.2.2 testRes testRoot testWorld (Img.convertRGBA testImg) rfl rfl rfl⟩
